import Mathlib

/-!
Shallow embedding of the balanca-backend-api ledger engine
(src/internal/services/transaction_service.go and the repositories it uses).

Conventions of the embedding:
- UUIDs are modelled as Nat; uuid.Nil is 0.
- int64 amounts and balances are modelled as unbounded Int.
- Each service method becomes a function DBState -> inputs -> FailSpec ->
  GoResult TransactionResponse x DBState. The FailSpec says which of the
  writes issued inside the gorm transaction fail; in the source every such
  failure calls tx.Rollback and returns an AppError with code SERVER_ERROR,
  so a failing write yields the unchanged pre-state. The committed state is
  only produced on the all-writes-succeed path, mirroring SQL transaction
  semantics.
- userRepository.FindByID converts gorm.ErrRecordNotFound into (nil, nil);
  the service only tests err and then dereferences the user pointer, so a
  missing user makes the service panic and the deferred recover returns the
  zero values (nil, nil). GoResult.nilnil is that outcome.
- groupRepository.FindByID and plannedExpenseRepository.FindByID return the
  gorm error unchanged, so not-found surfaces as a non-nil error there.
- The untyped Metadata / Changes json maps are omitted: no claim mentions
  their contents.
-/

namespace Balanca

structure User where
  id : Nat
  balance : Int
  deriving DecidableEq

structure Group where
  id : Nat
  balance : Int
  deriving DecidableEq

/-- A user_groups membership row (models.UserGroup): status is the string
column holding active, pending, and so on. -/
structure UserGroup where
  userId : Nat
  groupId : Nat
  status : String
  deriving DecidableEq

/-- models.Transaction, scalar columns only. -/
structure Transaction where
  id : Nat
  ownerType : String
  ownerId : Nat
  type : String
  amount : Int
  balance : Int
  category : String
  source : String
  description : String
  groupId : Option Nat := none
  paidBy : Option Nat := none
  plannedExpenseId : Option Nat := none
  userId : Nat
  deriving DecidableEq

/-- models.PlannedExpense, the columns the ledger engine touches. -/
structure PlannedExpense where
  id : Nat
  estimatedPrice : Int
  actualPrice : Option Int := none
  category : String
  status : String
  groupId : Option Nat := none
  userId : Nat
  paidBy : Option Nat := none
  paidAt : Option Nat := none
  deriving DecidableEq

/-- models.AuditLog, without the untyped Changes map. -/
structure AuditLog where
  entity : String
  entityId : Nat
  action : String
  performedBy : Nat
  groupId : Option Nat := none
  deriving DecidableEq

/-- The observable database state: the tables the ledger engine reads and
writes, a fresh-uuid counter (gorm BeforeCreate assigns uuid.New to every
inserted row; we model the transaction ids it hands out), and a clock used
for time.Now when an expense is paid. -/
structure DBState where
  users : List User
  groups : List Group
  userGroups : List UserGroup
  transactions : List Transaction
  auditLogs : List AuditLog
  expenses : List PlannedExpense
  nextId : Nat
  now : Nat
  deriving DecidableEq

/-- dto.CreateTransactionRequest. -/
structure CreateTransactionRequest where
  type : String
  amount : Int
  category : String
  source : String
  description : String
  groupId : Option Nat := none
  paidBy : Option Nat := none
  plannedExpenseId : Option Nat := none
  deriving DecidableEq

/-- dto.TransferToGroupRequest. -/
structure TransferToGroupRequest where
  groupId : Nat
  amount : Int
  description : String
  deriving DecidableEq

/-- dto.PayGroupExpenseRequest. -/
structure PayGroupExpenseRequest where
  plannedExpenseId : Nat
  actualPrice : Int
  description : String
  deriving DecidableEq

/-- dto.TransactionResponse, the scalar fields mapTransactionToResponse
copies from the transaction row. -/
structure TransactionResponse where
  id : Nat
  ownerType : String
  ownerId : Nat
  type : String
  amount : Int
  balance : Int
  category : String
  source : String
  description : String
  groupId : Option Nat := none
  paidBy : Option Nat := none
  plannedExpenseId : Option Nat := none
  deriving DecidableEq

/-- The pair a Go service method returns: (*dto.TransactionResponse, error).
ok r is (r, nil); appError c is (nil, AppError with code c); nilnil is the
(nil, nil) pair produced when a recovered panic makes the method return its
zero values. -/
inductive GoResult (α : Type) where
  | ok : α → GoResult α
  | appError : String → GoResult α
  | nilnil : GoResult α
  deriving DecidableEq

/-- Which writes inside the gorm transaction fail. Each field corresponds to
one tx.Create / tx.Save / tx.Commit call site; operations read only the
fields for the writes they actually issue, in source order. -/
structure FailSpec where
  createTxn1 : Bool := false
  createTxn2 : Bool := false
  saveOwner1 : Bool := false
  saveOwner2 : Bool := false
  saveExpense : Bool := false
  createAudit1 : Bool := false
  createAudit2 : Bool := false
  commit : Bool := false
  deriving DecidableEq

def FailSpec.noFail : FailSpec := {}

/-- CreatePersonalTransaction issues: tx.Create(transaction), tx.Save(user),
tx.Create(auditLog), tx.Commit. -/
def FailSpec.failsPersonal (f : FailSpec) : Bool :=
  f.createTxn1 || f.saveOwner1 || f.createAudit1 || f.commit

/-- CreateGroupTransaction issues: tx.Create(transaction), tx.Save(group),
tx.Create(auditLog), tx.Commit. -/
def FailSpec.failsGroupCreate (f : FailSpec) : Bool :=
  f.createTxn1 || f.saveOwner1 || f.createAudit1 || f.commit

/-- TransferToGroup issues: tx.Create(personalTransaction),
tx.Create(groupTransaction), tx.Save(user), tx.Save(group),
tx.Create(personalAuditLog), tx.Create(groupAuditLog), tx.Commit. -/
def FailSpec.failsTransfer (f : FailSpec) : Bool :=
  f.createTxn1 || f.createTxn2 || f.saveOwner1 || f.saveOwner2 ||
    f.createAudit1 || f.createAudit2 || f.commit

/-- PayGroupExpense issues: tx.Create(transaction), tx.Save(expense),
tx.Save(group), tx.Create(auditLog), tx.Commit. -/
def FailSpec.failsPay (f : FailSpec) : Bool :=
  f.createTxn1 || f.saveExpense || f.saveOwner1 || f.createAudit1 || f.commit

/-- RecordExternalIncome issues: tx.Create(transaction), tx.Save(group),
tx.Create(auditLog), tx.Commit. -/
def FailSpec.failsIncome (f : FailSpec) : Bool :=
  f.createTxn1 || f.saveOwner1 || f.createAudit1 || f.commit

/-- userRepository.FindByID; a missing row is reported as none (the Go code
returns nil, nil in that case). -/
def userFindByID (s : DBState) (id : Nat) : Option User :=
  s.users.find? (fun u => u.id == id)

/-- groupRepository.FindByID; none models the non-nil gorm error. -/
def groupFindByID (s : DBState) (id : Nat) : Option Group :=
  s.groups.find? (fun g => g.id == id)

/-- groupRepository.FindByUserAndGroup; none models the non-nil gorm error. -/
def findByUserAndGroup (s : DBState) (userId groupId : Nat) : Option UserGroup :=
  s.userGroups.find? (fun m => m.userId == userId && m.groupId == groupId)

/-- plannedExpenseRepository.FindByID; none models the non-nil gorm error. -/
def expenseFindByID (s : DBState) (id : Nat) : Option PlannedExpense :=
  s.expenses.find? (fun e => e.id == id)

/-- transactionRepository.FindByID. -/
def txnFindByID (s : DBState) (id : Nat) : Option Transaction :=
  s.transactions.find? (fun t => t.id == id)

/-- The membership test every group-scoped method performs:
userGroup, err := FindByUserAndGroup(...); err == nil && status == active. -/
def isActiveMember (s : DBState) (userId groupId : Nat) : Bool :=
  match findByUserAndGroup s userId groupId with
  | some m => m.status == "active"
  | none => false

/-- gorm Save: update the row with the same primary key. -/
def updateBy {α : Type} (key : α → Nat) (l : List α) (a : α) : List α :=
  l.map (fun x => if key x == key a then a else x)

def saveUser (users : List User) (u : User) : List User := updateBy User.id users u

def saveGroup (groups : List Group) (g : Group) : List Group := updateBy Group.id groups g

def saveExpense (expenses : List PlannedExpense) (e : PlannedExpense) : List PlannedExpense :=
  updateBy PlannedExpense.id expenses e

/-- mapTransactionToResponse, scalar fields. -/
def toResponse (t : Transaction) : TransactionResponse :=
  { id := t.id, ownerType := t.ownerType, ownerId := t.ownerId, type := t.type,
    amount := t.amount, balance := t.balance, category := t.category,
    source := t.source, description := t.description, groupId := t.groupId,
    paidBy := t.paidBy, plannedExpenseId := t.plannedExpenseId }

/-- transactionService.CreatePersonalTransaction. -/
def CreatePersonalTransaction (s : DBState) (userID : Nat)
    (req : CreateTransactionRequest) (f : FailSpec) :
    GoResult TransactionResponse × DBState :=
  match userFindByID s userID with
  | none =>
      -- FindByID reported not-found as (nil, nil); err is nil so the
      -- NOT_FOUND branch is skipped, user.Balance dereferences a nil
      -- pointer, the panic is recovered, tx.Rollback runs, and the method
      -- returns its zero values.
      (GoResult.nilnil, s)
  | some user =>
      let newBalance? : Option Int :=
        if req.type = "CREDIT" then some (user.balance + req.amount)
        else if user.balance < req.amount then none
        else some (user.balance - req.amount)
      match newBalance? with
      | none => (GoResult.appError "INSUFFICIENT_BALANCE", s)
      | some newBalance =>
          let txn : Transaction :=
            { id := s.nextId, ownerType := "USER", ownerId := userID,
              type := req.type, amount := req.amount, balance := newBalance,
              category := req.category, source := req.source,
              description := req.description, userId := userID }
          if f.failsPersonal then (GoResult.appError "SERVER_ERROR", s)
          else
            let s' : DBState :=
              { s with
                users := saveUser s.users { user with balance := newBalance },
                transactions := s.transactions ++ [txn],
                auditLogs := s.auditLogs ++
                  [{ entity := "transaction", entityId := txn.id,
                     action := "create", performedBy := userID }],
                nextId := s.nextId + 1 }
            match txnFindByID s' txn.id with
            | none => (GoResult.appError "SERVER_ERROR", s')
            | some t => (GoResult.ok (toResponse t), s')

/-- transactionService.CreateGroupTransaction. -/
def CreateGroupTransaction (s : DBState) (userID : Nat)
    (req : CreateTransactionRequest) (f : FailSpec) :
    GoResult TransactionResponse × DBState :=
  match req.groupId with
  | none => (GoResult.appError "INVALID_REQUEST", s)
  | some gid =>
      if isActiveMember s userID gid then
        match groupFindByID s gid with
        | none => (GoResult.appError "GROUP_NOT_FOUND", s)
        | some group =>
            let newBalance? : Option Int :=
              if req.type = "CREDIT" then some (group.balance + req.amount)
              else if group.balance < req.amount then none
              else some (group.balance - req.amount)
            match newBalance? with
            | none => (GoResult.appError "INSUFFICIENT_BALANCE", s)
            | some newBalance =>
                let txn : Transaction :=
                  { id := s.nextId, ownerType := "GROUP", ownerId := gid,
                    type := req.type, amount := req.amount,
                    balance := newBalance, category := req.category,
                    source := req.source, description := req.description,
                    groupId := some gid, paidBy := req.paidBy,
                    plannedExpenseId := req.plannedExpenseId,
                    userId := userID }
                if f.failsGroupCreate then (GoResult.appError "SERVER_ERROR", s)
                else
                  let s' : DBState :=
                    { s with
                      groups := saveGroup s.groups { group with balance := newBalance },
                      transactions := s.transactions ++ [txn],
                      auditLogs := s.auditLogs ++
                        [{ entity := "transaction", entityId := txn.id,
                           action := "create", performedBy := userID,
                           groupId := some gid }],
                      nextId := s.nextId + 1 }
                  match txnFindByID s' txn.id with
                  | none => (GoResult.appError "SERVER_ERROR", s')
                  | some t => (GoResult.ok (toResponse t), s')
      else (GoResult.appError "FORBIDDEN", s)

/-- transactionService.TransferToGroup. -/
def TransferToGroup (s : DBState) (userID : Nat)
    (req : TransferToGroupRequest) (f : FailSpec) :
    GoResult TransactionResponse × DBState :=
  if isActiveMember s userID req.groupId then
    match userFindByID s userID with
    | none =>
        -- same recovered nil-pointer panic as in CreatePersonalTransaction:
        -- err is nil, user is nil, user.Balance panics, recover rolls back.
        (GoResult.nilnil, s)
    | some user =>
        if user.balance < req.amount then
          (GoResult.appError "INSUFFICIENT_BALANCE", s)
        else
          match groupFindByID s req.groupId with
          | none => (GoResult.appError "GROUP_NOT_FOUND", s)
          | some group =>
              let ptxn : Transaction :=
                { id := s.nextId, ownerType := "USER", ownerId := userID,
                  type := "DEBIT", amount := req.amount,
                  balance := user.balance - req.amount,
                  category := "transfer", source := "group_transfer",
                  description := req.description, groupId := some req.groupId,
                  userId := userID }
              let gtxn : Transaction :=
                { id := s.nextId + 1, ownerType := "GROUP",
                  ownerId := req.groupId, type := "CREDIT",
                  amount := req.amount, balance := group.balance + req.amount,
                  category := "member_contribution", source := "member",
                  description := req.description, groupId := some req.groupId,
                  paidBy := some userID, userId := userID }
              if f.failsTransfer then (GoResult.appError "SERVER_ERROR", s)
              else
                let s' : DBState :=
                  { s with
                    users := saveUser s.users { user with balance := user.balance - req.amount },
                    groups := saveGroup s.groups { group with balance := group.balance + req.amount },
                    transactions := s.transactions ++ [ptxn, gtxn],
                    auditLogs := s.auditLogs ++
                      [{ entity := "transaction", entityId := ptxn.id,
                         action := "transfer_to_group", performedBy := userID },
                       { entity := "transaction", entityId := gtxn.id,
                         action := "receive_from_member", performedBy := userID,
                         groupId := some req.groupId }],
                    nextId := s.nextId + 2 }
                -- the method fetches and returns only groupTransaction.ID
                match txnFindByID s' gtxn.id with
                | none => (GoResult.appError "SERVER_ERROR", s')
                | some t => (GoResult.ok (toResponse t), s')
  else (GoResult.appError "FORBIDDEN", s)

/-- transactionService.PayGroupExpense. -/
def PayGroupExpense (s : DBState) (userID groupID : Nat)
    (req : PayGroupExpenseRequest) (f : FailSpec) :
    GoResult TransactionResponse × DBState :=
  if isActiveMember s userID groupID then
    match expenseFindByID s req.plannedExpenseId with
    | none => (GoResult.appError "EXPENSE_NOT_FOUND", s)
    | some expense =>
        -- expense.GroupID == nil || *expense.GroupID != groupID
        if expense.groupId = some groupID then
          if expense.status = "planned" then
            match groupFindByID s groupID with
            | none => (GoResult.appError "GROUP_NOT_FOUND", s)
            | some group =>
                if group.balance < req.actualPrice then
                  (GoResult.appError "INSUFFICIENT_BALANCE", s)
                else
                  let txn : Transaction :=
                    { id := s.nextId, ownerType := "GROUP", ownerId := groupID,
                      type := "DEBIT", amount := req.actualPrice,
                      balance := group.balance - req.actualPrice,
                      category := expense.category, source := "expense_payment",
                      description := req.description, groupId := some groupID,
                      paidBy := some userID,
                      plannedExpenseId := some req.plannedExpenseId,
                      userId := userID }
                  if f.failsPay then (GoResult.appError "SERVER_ERROR", s)
                  else
                    let expense' : PlannedExpense :=
                      { expense with
                        status := "bought",
                        actualPrice := some req.actualPrice,
                        paidBy := some userID, paidAt := some s.now }
                    let s' : DBState :=
                      { s with
                        groups := saveGroup s.groups { group with balance := group.balance - req.actualPrice },
                        expenses := saveExpense s.expenses expense',
                        transactions := s.transactions ++ [txn],
                        auditLogs := s.auditLogs ++
                          [{ entity := "planned_expense", entityId := expense.id,
                             action := "mark_as_paid", performedBy := userID,
                             groupId := some groupID }],
                        nextId := s.nextId + 1 }
                    match txnFindByID s' txn.id with
                    | none => (GoResult.appError "SERVER_ERROR", s')
                    | some t => (GoResult.ok (toResponse t), s')
          else (GoResult.appError "INVALID_STATUS", s)
        else (GoResult.appError "FORBIDDEN", s)
  else (GoResult.appError "FORBIDDEN", s)

/-- transactionService.RecordExternalIncome. Note: no amount validation of
any kind is performed. -/
def RecordExternalIncome (s : DBState) (userID groupID : Nat)
    (amount : Int) (source : String) (f : FailSpec) :
    GoResult TransactionResponse × DBState :=
  if isActiveMember s userID groupID then
    match groupFindByID s groupID with
    | none => (GoResult.appError "GROUP_NOT_FOUND", s)
    | some group =>
        let txn : Transaction :=
          { id := s.nextId, ownerType := "GROUP", ownerId := groupID,
            type := "CREDIT", amount := amount,
            balance := group.balance + amount, category := "external_income",
            source := source, description := "External contribution",
            groupId := some groupID, userId := userID }
        if f.failsIncome then (GoResult.appError "SERVER_ERROR", s)
        else
          let s' : DBState :=
            { s with
              groups := saveGroup s.groups { group with balance := group.balance + amount },
              transactions := s.transactions ++ [txn],
              auditLogs := s.auditLogs ++
                [{ entity := "transaction", entityId := txn.id,
                   action := "record_external_income", performedBy := userID,
                   groupId := some groupID }],
              nextId := s.nextId + 1 }
          match txnFindByID s' txn.id with
          | none => (GoResult.appError "SERVER_ERROR", s')
          | some t => (GoResult.ok (toResponse t), s')
  else (GoResult.appError "FORBIDDEN", s)

/-- The gin binding rules of dto.CreateTransactionRequest:
Type required, oneof CREDIT DEBIT; Amount required, gt=0; Category and
Source required (non-zero value). -/
def CreateTransactionRequest.bindingValid (r : CreateTransactionRequest) : Bool :=
  (r.type == "CREDIT" || r.type == "DEBIT") && decide (0 < r.amount) &&
    !(r.category == "") && !(r.source == "")

/-- The gin binding rules of dto.TransferToGroupRequest:
GroupID required (non-zero uuid); Amount required, gt=0. -/
def TransferToGroupRequest.bindingValid (r : TransferToGroupRequest) : Bool :=
  !(r.groupId == 0) && decide (0 < r.amount)

/-- The gin binding rules of dto.PayGroupExpenseRequest:
PlannedExpenseID required (non-zero uuid); ActualPrice required, gt=0. -/
def PayGroupExpenseRequest.bindingValid (r : PayGroupExpenseRequest) : Bool :=
  !(r.plannedExpenseId == 0) && decide (0 < r.actualPrice)

/-- The signed contribution of one transaction row, as in
transactionRepository.GetBalance: CREDIT counts positively, anything else
negatively. -/
def signedAmount (t : Transaction) : Int :=
  if t.type = "CREDIT" then t.amount else -t.amount

/-- The signed sum of all transactions recorded against one owner
(transactionRepository.GetBalance). -/
def signedSum (ownerType : String) (ownerId : Nat) (l : List Transaction) : Int :=
  ((l.filter (fun t => t.ownerType == ownerType && t.ownerId == ownerId)).map
    signedAmount).sum

def invUsers (users : List User) (txns : List Transaction) : Prop :=
  ∀ u ∈ users, u.balance = signedSum "USER" u.id txns

def invGroups (groups : List Group) (txns : List Transaction) : Prop :=
  ∀ g ∈ groups, g.balance = signedSum "GROUP" g.id txns

/-- The balance-sum invariant: every stored owner balance equals the signed
sum of the transactions recorded against that owner. -/
def balanceInvariant (s : DBState) : Prop :=
  invUsers s.users s.transactions ∧ invGroups s.groups s.transactions

/-- Primary keys are unique (database well-formedness). -/
def distinctIds (s : DBState) : Prop :=
  (s.users.map User.id).Nodup ∧ (s.groups.map Group.id).Nodup

/-- Every stored transaction id was allocated below the fresh counter
(database well-formedness: ids handed out so far are below nextId). -/
def txnIdsFresh (s : DBState) : Prop :=
  ∀ t ∈ s.transactions, t.id < s.nextId

def userBalance (s : DBState) (uid : Nat) : Option Int :=
  (userFindByID s uid).map User.balance

def groupBalance (s : DBState) (gid : Nat) : Option Int :=
  (groupFindByID s gid).map Group.balance

end Balanca

namespace Balanca

/-- A small concrete database used to instantiate the theorems: one user
with balance 100, one group with balance 40, an active membership of user 1
in group 2, an active membership row for user 8 whose user row is absent
from the users table (the soft-deleted-member situation), a transaction
history matching both balances, and one planned group expense. -/
def sampleState : DBState :=
  { users := [{ id := 1, balance := 100 }],
    groups := [{ id := 2, balance := 40 }],
    userGroups := [{ userId := 1, groupId := 2, status := "active" },
                   { userId := 8, groupId := 2, status := "active" }],
    transactions :=
      [{ id := 3, ownerType := "USER", ownerId := 1, type := "CREDIT",
         amount := 100, balance := 100, category := "salary", source := "job",
         description := "", userId := 1 },
       { id := 4, ownerType := "GROUP", ownerId := 2, type := "CREDIT",
         amount := 40, balance := 40, category := "external_income",
         source := "gift", description := "", userId := 1 }],
    auditLogs := [],
    expenses := [{ id := 5, estimatedPrice := 200, category := "food",
                   status := "planned", groupId := some 2, userId := 1 }],
    nextId := 6, now := 77 }

def sampleDebitReq : CreateTransactionRequest :=
  { type := "DEBIT", amount := 30, category := "food", source := "wallet",
    description := "" }

def sampleCreditReq : CreateTransactionRequest :=
  { type := "CREDIT", amount := 30, category := "salary", source := "job",
    description := "" }

def sampleGroupDebitReq : CreateTransactionRequest :=
  { type := "DEBIT", amount := 30, category := "food", source := "wallet",
    description := "", groupId := some 2 }

def sampleTransferReq : TransferToGroupRequest :=
  { groupId := 2, amount := 50, description := "" }

def samplePayReq : PayGroupExpenseRequest :=
  { plannedExpenseId := 5, actualPrice := 30, description := "" }

instance (users : List User) (txns : List Transaction) :
    Decidable (invUsers users txns) :=
  decidable_of_iff (∀ u ∈ users, u.balance = signedSum "USER" u.id txns) Iff.rfl

instance (groups : List Group) (txns : List Transaction) :
    Decidable (invGroups groups txns) :=
  decidable_of_iff (∀ g ∈ groups, g.balance = signedSum "GROUP" g.id txns) Iff.rfl

instance (s : DBState) : Decidable (balanceInvariant s) :=
  inferInstanceAs (Decidable (_ ∧ _))

instance (s : DBState) : Decidable (distinctIds s) :=
  inferInstanceAs (Decidable (_ ∧ _))

instance (s : DBState) : Decidable (txnIdsFresh s) :=
  decidable_of_iff (∀ t ∈ s.transactions, t.id < s.nextId) Iff.rfl

theorem mem_updateBy {α : Type} (key : α → Nat) {l : List α} {a x : α}
    (hx : x ∈ updateBy key l a) : x = a ∨ (x ∈ l ∧ key x ≠ key a) := by
  rcases List.mem_map.mp hx with ⟨y, hy, hfy⟩
  by_cases h : key y = key a
  · left
    simpa [h] using hfy.symm
  · right
    have hyx : y = x := by simpa [h] using hfy
    exact ⟨hyx ▸ hy, hyx ▸ h⟩

theorem find?_updateBy {α : Type} (key : α → Nat) {l : List α} {k : Nat} {a b : α}
    (hf : l.find? (fun x => key x == k) = some a) (hk : key b = key a) :
    (updateBy key l b).find? (fun x => key x == k) = some b := by
  have hak : key a = k := by simpa using List.find?_some hf
  induction l with
  | nil => simp at hf
  | cons h t ih =>
    rw [List.find?_cons] at hf
    by_cases hh : key h = k
    · have hab : h = a := by simpa [hh] using hf
      subst hab
      simp [updateBy, hk, hh, hak, List.find?_cons]
    · have hkh : (key h == k) = false := by simp [hh]
      rw [hkh] at hf
      simp only at hf
      have hbh : ¬ (key h = key b) := by
        rw [hk, hak]
        exact hh
      simpa [updateBy, hbh, hh, List.find?_cons] using ih hf

theorem find?_append_of_none {α : Type} {p : α → Bool} {l₁ l₂ : List α}
    (h : ∀ x ∈ l₁, ¬ p x = true) :
    (l₁ ++ l₂).find? p = l₂.find? p := by
  rw [List.find?_append, List.find?_eq_none.mpr h, Option.none_or]

theorem signedSum_append (ot : String) (oid : Nat) (l : List Transaction)
    (t : Transaction) :
    signedSum ot oid (l ++ [t]) =
      signedSum ot oid l +
        (if t.ownerType = ot ∧ t.ownerId = oid then signedAmount t else 0) := by
  by_cases h1 : t.ownerType = ot <;> by_cases h2 : t.ownerId = oid <;>
    simp [signedSum, List.filter_append, h1, h2]

theorem invUsers_skip {users : List User} {txns : List Transaction}
    {t : Transaction} (h : invUsers users txns) (ht : t.ownerType ≠ "USER") :
    invUsers users (txns ++ [t]) := by
  intro u hu
  rw [signedSum_append]
  simp [ht, h u hu]

theorem invGroups_skip {groups : List Group} {txns : List Transaction}
    {t : Transaction} (h : invGroups groups txns) (ht : t.ownerType ≠ "GROUP") :
    invGroups groups (txns ++ [t]) := by
  intro g hg
  rw [signedSum_append]
  simp [ht, h g hg]

theorem invUsers_step {users : List User} {txns : List Transaction} {u : User}
    {t : Transaction} {b : Int} (hu : u ∈ users) (hinv : invUsers users txns)
    (hot : t.ownerType = "USER") (hoid : t.ownerId = u.id)
    (hb : b = u.balance + signedAmount t) :
    invUsers (saveUser users { u with balance := b }) (txns ++ [t]) := by
  intro x hx
  rcases mem_updateBy User.id hx with rfl | ⟨hxmem, hne⟩
  · rw [signedSum_append]
    simp only [hot, hoid]
    simp [hb, hinv u hu]
  · rw [signedSum_append]
    have hcond : ¬ (t.ownerType = "USER" ∧ t.ownerId = x.id) := by
      rintro ⟨_, h2⟩
      exact hne (by simp [← h2, hoid])
    simp [hcond, hinv x hxmem]

theorem invGroups_step {groups : List Group} {txns : List Transaction}
    {g : Group} {t : Transaction} {b : Int} (hg : g ∈ groups)
    (hinv : invGroups groups txns) (hot : t.ownerType = "GROUP")
    (hoid : t.ownerId = g.id) (hb : b = g.balance + signedAmount t) :
    invGroups (saveGroup groups { g with balance := b }) (txns ++ [t]) := by
  intro x hx
  rcases mem_updateBy Group.id hx with rfl | ⟨hxmem, hne⟩
  · rw [signedSum_append]
    simp only [hot, hoid]
    simp [hb, hinv g hg]
  · rw [signedSum_append]
    have hcond : ¬ (t.ownerType = "GROUP" ∧ t.ownerId = x.id) := by
      rintro ⟨_, h2⟩
      exact hne (by simp [← h2, hoid])
    simp [hcond, hinv x hxmem]

theorem userFindByID_mem {s : DBState} {uid : Nat} {u : User}
    (h : userFindByID s uid = some u) : u ∈ s.users ∧ u.id = uid :=
  ⟨List.mem_of_find?_eq_some h, by simpa using List.find?_some h⟩

theorem groupFindByID_mem {s : DBState} {gid : Nat} {g : Group}
    (h : groupFindByID s gid = some g) : g ∈ s.groups ∧ g.id = gid :=
  ⟨List.mem_of_find?_eq_some h, by simpa using List.find?_some h⟩

theorem expenseFindByID_mem {s : DBState} {eid : Nat} {e : PlannedExpense}
    (h : expenseFindByID s eid = some e) : e ∈ s.expenses ∧ e.id = eid :=
  ⟨List.mem_of_find?_eq_some h, by simpa using List.find?_some h⟩

end Balanca

namespace Balanca

theorem inv_CreatePersonalTransaction (s : DBState) (hinv : balanceInvariant s)
    (uid : Nat) (req : CreateTransactionRequest) (f : FailSpec) :
    balanceInvariant (CreatePersonalTransaction s uid req f).2 := by
  unfold CreatePersonalTransaction
  cases hfind : userFindByID s uid with
  | none => exact hinv
  | some user =>
    obtain ⟨humem, hid⟩ := userFindByID_mem hfind
    by_cases hc : req.type = "CREDIT"
    · simp only [hc, if_pos, ite_true, if_true]
      by_cases hff : f.failsPersonal
      · simp [hff]; exact hinv
      · simp only [hff, Bool.false_eq_true, if_false, ite_false]
        cases htf : txnFindByID _ _ <;>
          exact ⟨invUsers_step humem hinv.1 rfl hid.symm
              (by simp [signedAmount, hc]),
            invGroups_skip hinv.2 (by simp)⟩
    · by_cases hlt : user.balance < req.amount
      · simp [hc, hlt]; exact hinv
      · simp only [hc, hlt, if_false, ite_false]
        by_cases hff : f.failsPersonal
        · simp [hff]; exact hinv
        · simp only [hff, Bool.false_eq_true, if_false, ite_false]
          cases htf : txnFindByID _ _ <;>
            exact ⟨invUsers_step humem hinv.1 rfl hid.symm
                (by simp [signedAmount, hc]; ring),
              invGroups_skip hinv.2 (by simp)⟩

theorem inv_CreateGroupTransaction (s : DBState) (hinv : balanceInvariant s)
    (uid : Nat) (req : CreateTransactionRequest) (f : FailSpec) :
    balanceInvariant (CreateGroupTransaction s uid req f).2 := by
  unfold CreateGroupTransaction
  cases req.groupId with
  | none => exact hinv
  | some gid =>
    by_cases hm : isActiveMember s uid gid
    · simp only [hm, if_pos, ite_true, if_true]
      cases hfind : groupFindByID s gid with
      | none => exact hinv
      | some group =>
        obtain ⟨hgmem, hid⟩ := groupFindByID_mem hfind
        by_cases hc : req.type = "CREDIT"
        · simp only [hc, if_pos, ite_true, if_true]
          by_cases hff : f.failsGroupCreate
          · simp [hff]; exact hinv
          · simp only [hff, Bool.false_eq_true, if_false, ite_false]
            cases htf : txnFindByID _ _ <;>
              exact ⟨invUsers_skip hinv.1 (by simp),
                invGroups_step hgmem hinv.2 rfl hid.symm
                  (by simp [signedAmount, hc])⟩
        · by_cases hlt : group.balance < req.amount
          · simp [hc, hlt]; exact hinv
          · simp only [hc, hlt, if_false, ite_false]
            by_cases hff : f.failsGroupCreate
            · simp [hff]; exact hinv
            · simp only [hff, Bool.false_eq_true, if_false, ite_false]
              cases htf : txnFindByID _ _ <;>
                exact ⟨invUsers_skip hinv.1 (by simp),
                  invGroups_step hgmem hinv.2 rfl hid.symm
                    (by simp [signedAmount, hc]; ring)⟩
    · simp [hm]; exact hinv

theorem inv_TransferToGroup (s : DBState) (hinv : balanceInvariant s)
    (uid : Nat) (req : TransferToGroupRequest) (f : FailSpec) :
    balanceInvariant (TransferToGroup s uid req f).2 := by
  unfold TransferToGroup
  by_cases hm : isActiveMember s uid req.groupId
  · simp only [hm, if_pos, ite_true, if_true]
    cases hufind : userFindByID s uid with
    | none => exact hinv
    | some user =>
      obtain ⟨humem, huid⟩ := userFindByID_mem hufind
      by_cases hlt : user.balance < req.amount
      · simp [hlt]; exact hinv
      · simp only [hlt, if_false, ite_false]
        cases hgfind : groupFindByID s req.groupId with
        | none => exact hinv
        | some group =>
          obtain ⟨hgmem, hgid⟩ := groupFindByID_mem hgfind
          by_cases hff : f.failsTransfer
          · simp [hff]; exact hinv
          · simp only [hff, Bool.false_eq_true, if_false, ite_false]
            cases htf : txnFindByID _ _ <;>
            · refine ⟨?_, ?_⟩
              · rw [show ∀ p g : Transaction, s.transactions ++ [p, g] =
                    (s.transactions ++ [p]) ++ [g] from fun p g => by simp]
                exact invUsers_skip
                  (invUsers_step humem hinv.1 rfl huid.symm
                    (by simp [signedAmount]; ring)) (by simp)
              · rw [show ∀ p g : Transaction, s.transactions ++ [p, g] =
                    (s.transactions ++ [p]) ++ [g] from fun p g => by simp]
                exact invGroups_step hgmem
                  (invGroups_skip hinv.2 (by simp)) rfl hgid.symm
                  (by simp [signedAmount])
  · simp [hm]; exact hinv

theorem inv_PayGroupExpense (s : DBState) (hinv : balanceInvariant s)
    (uid gid : Nat) (req : PayGroupExpenseRequest) (f : FailSpec) :
    balanceInvariant (PayGroupExpense s uid gid req f).2 := by
  unfold PayGroupExpense
  by_cases hm : isActiveMember s uid gid
  · simp only [hm, if_pos, ite_true, if_true]
    cases hefind : expenseFindByID s req.plannedExpenseId with
    | none => exact hinv
    | some expense =>
      by_cases heg : expense.groupId = some gid
      · simp only [heg, if_pos, ite_true, if_true]
        by_cases hst : expense.status = "planned"
        · simp only [hst, if_pos, ite_true, if_true]
          cases hgfind : groupFindByID s gid with
          | none => exact hinv
          | some group =>
            obtain ⟨hgmem, hgid⟩ := groupFindByID_mem hgfind
            by_cases hlt : group.balance < req.actualPrice
            · simp [hlt]; exact hinv
            · simp only [hlt, if_false, ite_false]
              by_cases hff : f.failsPay
              · simp [hff]; exact hinv
              · simp only [hff, Bool.false_eq_true, if_false, ite_false]
                cases htf : txnFindByID _ _ <;>
                  exact ⟨invUsers_skip hinv.1 (by simp),
                    invGroups_step hgmem hinv.2 rfl hgid.symm
                      (by simp [signedAmount]; ring)⟩
        · simp [hst]; exact hinv
      · simp [heg]; exact hinv
  · simp [hm]; exact hinv

theorem inv_RecordExternalIncome (s : DBState) (hinv : balanceInvariant s)
    (uid gid : Nat) (amount : Int) (source : String) (f : FailSpec) :
    balanceInvariant (RecordExternalIncome s uid gid amount source f).2 := by
  unfold RecordExternalIncome
  by_cases hm : isActiveMember s uid gid
  · simp only [hm, if_pos, ite_true, if_true]
    cases hgfind : groupFindByID s gid with
    | none => exact hinv
    | some group =>
      obtain ⟨hgmem, hgid⟩ := groupFindByID_mem hgfind
      by_cases hff : f.failsIncome
      · simp [hff]; exact hinv
      · simp only [hff, Bool.false_eq_true, if_false, ite_false]
        cases htf : txnFindByID _ _ <;>
          exact ⟨invUsers_skip hinv.1 (by simp),
            invGroups_step hgmem hinv.2 rfl hgid.symm (by simp [signedAmount])⟩
  · simp [hm]; exact hinv

/-- C1: for every owner (user or group), the stored balance always equals
the signed sum (CREDIT positive, DEBIT negative) of all transaction rows
recorded against that owner, and this invariant is preserved by every call
to each of the five ledger operations, for every input and every pattern of
write failures inside the atomic unit. -/
theorem c1_balance_sum_invariant_preserved (s : DBState)
    (hinv : balanceInvariant s) :
    (∀ uid req f, balanceInvariant (CreatePersonalTransaction s uid req f).2) ∧
    (∀ uid req f, balanceInvariant (CreateGroupTransaction s uid req f).2) ∧
    (∀ uid req f, balanceInvariant (TransferToGroup s uid req f).2) ∧
    (∀ uid gid req f, balanceInvariant (PayGroupExpense s uid gid req f).2) ∧
    (∀ uid gid a src f,
      balanceInvariant (RecordExternalIncome s uid gid a src f).2) :=
  ⟨fun uid req f => inv_CreatePersonalTransaction s hinv uid req f,
   fun uid req f => inv_CreateGroupTransaction s hinv uid req f,
   fun uid req f => inv_TransferToGroup s hinv uid req f,
   fun uid gid req f => inv_PayGroupExpense s hinv uid gid req f,
   fun uid gid a src f => inv_RecordExternalIncome s hinv uid gid a src f⟩

/-- Witness for C1 at the sample database and a concrete debit. -/
theorem c1_balance_sum_invariant_preserved_witness :
    balanceInvariant
      (CreatePersonalTransaction sampleState 1 sampleDebitReq FailSpec.noFail).2 :=
  (c1_balance_sum_invariant_preserved sampleState (by decide)).1 1
    sampleDebitReq FailSpec.noFail

end Balanca

namespace Balanca

/-- C7: every group-scoped operation checks the acting membership before the
atomic unit begins; without an active membership it returns FORBIDDEN and
leaves the state untouched, whatever the rest of the input and whatever
writes would have failed. -/
theorem c7_membership_forbidden :
    (∀ s uid gid req f, req.groupId = some gid →
       isActiveMember s uid gid = false →
       CreateGroupTransaction s uid req f = (GoResult.appError "FORBIDDEN", s)) ∧
    (∀ s uid req f, isActiveMember s uid req.groupId = false →
       TransferToGroup s uid req f = (GoResult.appError "FORBIDDEN", s)) ∧
    (∀ s uid gid req f, isActiveMember s uid gid = false →
       PayGroupExpense s uid gid req f = (GoResult.appError "FORBIDDEN", s)) ∧
    (∀ s uid gid a src f, isActiveMember s uid gid = false →
       RecordExternalIncome s uid gid a src f =
         (GoResult.appError "FORBIDDEN", s)) := by
  refine ⟨?_, ?_, ?_, ?_⟩
  · intro s uid gid req f hg hm
    unfold CreateGroupTransaction
    rw [hg]
    simp [hm]
  · intro s uid req f hm
    unfold TransferToGroup
    simp [hm]
  · intro s uid gid req f hm
    unfold PayGroupExpense
    simp [hm]
  · intro s uid gid a src f hm
    unfold RecordExternalIncome
    simp [hm]

/-- Witness for C7: user 9 holds no membership in group 2. -/
theorem c7_membership_forbidden_witness :
    RecordExternalIncome sampleState 9 2 25 "gift" FailSpec.noFail =
      (GoResult.appError "FORBIDDEN", sampleState) :=
  c7_membership_forbidden.2.2.2 sampleState 9 2 25 "gift" FailSpec.noFail
    (by decide)

/-- C3: if any write issued inside the atomic unit fails - the transaction
insert, an owner save, the linked-expense save, an audit-log insert, or the
commit - the operation rolls the whole unit back: the state is exactly the
pre-state and no success result is returned. -/
theorem c3_atomic_rollback_on_write_failure :
    (∀ s uid req f, f.failsPersonal = true →
       (CreatePersonalTransaction s uid req f).2 = s ∧
       ∀ r, (CreatePersonalTransaction s uid req f).1 ≠ GoResult.ok r) ∧
    (∀ s uid req f, f.failsGroupCreate = true →
       (CreateGroupTransaction s uid req f).2 = s ∧
       ∀ r, (CreateGroupTransaction s uid req f).1 ≠ GoResult.ok r) ∧
    (∀ s uid req f, f.failsTransfer = true →
       (TransferToGroup s uid req f).2 = s ∧
       ∀ r, (TransferToGroup s uid req f).1 ≠ GoResult.ok r) ∧
    (∀ s uid gid req f, f.failsPay = true →
       (PayGroupExpense s uid gid req f).2 = s ∧
       ∀ r, (PayGroupExpense s uid gid req f).1 ≠ GoResult.ok r) ∧
    (∀ s uid gid a src f, f.failsIncome = true →
       (RecordExternalIncome s uid gid a src f).2 = s ∧
       ∀ r, (RecordExternalIncome s uid gid a src f).1 ≠ GoResult.ok r) := by
  refine ⟨?_, ?_, ?_, ?_, ?_⟩
  · intro s uid req f hf
    unfold CreatePersonalTransaction
    cases userFindByID s uid with
    | none => exact ⟨rfl, by simp⟩
    | some user =>
      by_cases hc : req.type = "CREDIT"
      · simp [hc, hf]
      · by_cases hlt : user.balance < req.amount
        · simp [hc, hlt]
        · simp [hc, hlt, hf]
  · intro s uid req f hf
    unfold CreateGroupTransaction
    cases req.groupId with
    | none => exact ⟨rfl, by simp⟩
    | some gid =>
      by_cases hm : isActiveMember s uid gid
      · simp only [hm, if_pos, ite_true, if_true]
        cases groupFindByID s gid with
        | none => simp
        | some group =>
          by_cases hc : req.type = "CREDIT"
          · simp [hc, hf]
          · by_cases hlt : group.balance < req.amount
            · simp [hc, hlt]
            · simp [hc, hlt, hf]
      · simp [hm]
  · intro s uid req f hf
    unfold TransferToGroup
    by_cases hm : isActiveMember s uid req.groupId
    · simp only [hm, if_pos, ite_true, if_true]
      cases userFindByID s uid with
      | none => simp
      | some user =>
        by_cases hlt : user.balance < req.amount
        · simp [hlt]
        · simp only [hlt, if_false, ite_false]
          cases groupFindByID s req.groupId with
          | none => simp
          | some group => simp [hf]
    · simp [hm]
  · intro s uid gid req f hf
    unfold PayGroupExpense
    by_cases hm : isActiveMember s uid gid
    · simp only [hm, if_pos, ite_true, if_true]
      cases expenseFindByID s req.plannedExpenseId with
      | none => simp
      | some expense =>
        by_cases heg : expense.groupId = some gid
        · simp only [heg, if_pos, ite_true, if_true]
          by_cases hst : expense.status = "planned"
          · simp only [hst, if_pos, ite_true, if_true]
            cases groupFindByID s gid with
            | none => simp
            | some group =>
              by_cases hlt : group.balance < req.actualPrice
              · simp [hlt]
              · simp [hlt, hf]
          · simp [hst]
        · simp [heg]
    · simp [hm]
  · intro s uid gid a src f hf
    unfold RecordExternalIncome
    by_cases hm : isActiveMember s uid gid
    · simp only [hm, if_pos, ite_true, if_true]
      cases groupFindByID s gid with
      | none => simp
      | some group => simp [hf]
    · simp [hm]

/-- Witness for C3: a failing audit-log insert rolls the whole personal
debit back. -/
theorem c3_atomic_rollback_witness :
    (CreatePersonalTransaction sampleState 1 sampleDebitReq
        { createAudit1 := true }).2 = sampleState ∧
    ∀ r, (CreatePersonalTransaction sampleState 1 sampleDebitReq
        { createAudit1 := true }).1 ≠ GoResult.ok r :=
  c3_atomic_rollback_on_write_failure.1 sampleState 1 sampleDebitReq
    { createAudit1 := true } (by decide)

end Balanca

namespace Balanca

theorem find?_append_exists {α : Type} {p : α → Bool} {l l₂ : List α} {t : α}
    (h : l₂.find? p = some t) : ∃ x, (l ++ l₂).find? p = some x := by
  rw [List.find?_append, h]
  cases l.find? p <;> exact ⟨_, rfl⟩

/-- C9 (observed code behavior at the failing input): the personal
transaction operation called with user id 9, absent from the user store,
returns the (nil, nil) pair - no response and no NotFound error - because
the repository reports not-found as a nil user with a nil error and the
recovered nil-pointer panic makes the method return zero values. -/
theorem c9_missing_user_returns_nil_nil :
    CreatePersonalTransaction sampleState 9 sampleCreditReq FailSpec.noFail =
      (GoResult.nilnil, sampleState) := by decide

/-- C10 counterexample: with user 9 absent from the user store and holding
no membership row, TransferToGroup returns a FORBIDDEN AppError - so it is
not true that every call with an absent user id returns neither a response
nor an error. -/
theorem c10_counterexample_forbidden_first :
    TransferToGroup sampleState 9 sampleTransferReq FailSpec.noFail =
      (GoResult.appError "FORBIDDEN", sampleState) := by decide

/-- C10 (amended): CreatePersonalTransaction called with a user id absent
from the user store always returns (nil, nil) - the repository reports
not-found as a nil user with nil error, the nil-pointer dereference panics,
and the deferred recover swallows the panic after rolling back; and
TransferToGroup behaves the same way whenever its membership precheck
passes (when it does not, the check fails first with FORBIDDEN). -/
theorem c10_nil_nil_on_missing_user :
    (∀ s uid req f, userFindByID s uid = none →
       CreatePersonalTransaction s uid req f = (GoResult.nilnil, s)) ∧
    (∀ s uid req f, isActiveMember s uid req.groupId = true →
       userFindByID s uid = none →
       TransferToGroup s uid req f = (GoResult.nilnil, s)) := by
  constructor
  · intro s uid req f h
    unfold CreatePersonalTransaction
    rw [h]
  · intro s uid req f hm h
    unfold TransferToGroup
    simp only [hm, if_pos, ite_true, if_true]
    rw [h]

/-- Witness for C10: user 8 holds an active membership in group 2 but has
no row in the user store (a soft-deleted member), so the transfer returns
the (nil, nil) pair. -/
theorem c10_nil_nil_witness :
    TransferToGroup sampleState 8 sampleTransferReq FailSpec.noFail =
      (GoResult.nilnil, sampleState) :=
  c10_nil_nil_on_missing_user.2 sampleState 8 sampleTransferReq
    FailSpec.noFail (by decide) (by decide)

/-- C8 counterexample: RecordExternalIncome, called by an active member
with the non-positive amount -100, does not fail with any InvalidAmount
error: it succeeds, creates a third transaction record, and drives the
group balance from 40 to -60. -/
theorem c8_counterexample_negative_income :
    (RecordExternalIncome sampleState 1 2 (-100) "gift" FailSpec.noFail).1 =
        GoResult.ok
          { id := 6, ownerType := "GROUP", ownerId := 2, type := "CREDIT",
            amount := -100, balance := -60, category := "external_income",
            source := "gift", description := "External contribution",
            groupId := some 2 } ∧
      (RecordExternalIncome sampleState 1 2 (-100) "gift"
          FailSpec.noFail).2.groups = [{ id := 2, balance := -60 }] ∧
      (RecordExternalIncome sampleState 1 2 (-100) "gift"
          FailSpec.noFail).2.transactions.length = 3 := by decide

/-- C8 (amended): the ledger engine itself performs no amount validation
and has no InvalidAmount error code. Non-positive amounts are rejected only
by the request-binding layer (the gt=0 gin tags) before the DTO-based
operations run, while RecordExternalIncome, whose amount is a raw int64
argument, accepts any amount - including non-positive ones - crediting it
to the group and appending a transaction record. -/
theorem c8_amount_validation_at_binding_only :
    (∀ r : CreateTransactionRequest, r.amount ≤ 0 → r.bindingValid = false) ∧
    (∀ r : TransferToGroupRequest, r.amount ≤ 0 → r.bindingValid = false) ∧
    (∀ r : PayGroupExpenseRequest, r.actualPrice ≤ 0 → r.bindingValid = false) ∧
    (∀ s uid gid amount src g, isActiveMember s uid gid = true →
       groupFindByID s gid = some g →
       groupBalance
           (RecordExternalIncome s uid gid amount src FailSpec.noFail).2 gid =
         some (g.balance + amount) ∧
       (RecordExternalIncome s uid gid amount src
           FailSpec.noFail).2.transactions.length =
         s.transactions.length + 1) := by
  refine ⟨?_, ?_, ?_, ?_⟩
  · intro r h
    have hd : (decide ((0 : Int) < r.amount)) = false := decide_eq_false (by omega)
    simp [CreateTransactionRequest.bindingValid, hd]
  · intro r h
    have hd : (decide ((0 : Int) < r.amount)) = false := decide_eq_false (by omega)
    simp [TransferToGroupRequest.bindingValid, hd]
  · intro r h
    have hd : (decide ((0 : Int) < r.actualPrice)) = false := decide_eq_false (by omega)
    simp [PayGroupExpenseRequest.bindingValid, hd]
  · intro s uid gid amount src g hm hg
    unfold RecordExternalIncome
    simp only [hm, if_pos, ite_true, if_true]
    rw [hg]
    simp only [show FailSpec.noFail.failsIncome = false from rfl,
      Bool.false_eq_true, if_false, ite_false]
    have hgb : (updateBy Group.id s.groups
          { g with balance := g.balance + amount }).find?
          (fun x => x.id == gid) =
        some { g with balance := g.balance + amount } :=
      find?_updateBy Group.id hg rfl
    cases htf : txnFindByID _ _ with
    | none =>
      refine ⟨?_, by simp⟩
      unfold groupBalance groupFindByID saveGroup
      dsimp only
      rw [hgb]
      rfl
    | some t =>
      refine ⟨?_, by simp⟩
      unfold groupBalance groupFindByID saveGroup
      dsimp only
      rw [hgb]
      rfl

/-- Witness for C8 (amended): a non-positive DTO amount fails binding, and
the raw-amount income path moves the sample group from 40 to -60. -/
theorem c8_amount_validation_witness :
    ({ sampleDebitReq with amount := -5 :
        CreateTransactionRequest }).bindingValid = false ∧
    groupBalance
        (RecordExternalIncome sampleState 1 2 (-100) "gift"
          FailSpec.noFail).2 2 = some (40 + -100) :=
  ⟨c8_amount_validation_at_binding_only.1 _ (by decide),
   (c8_amount_validation_at_binding_only.2.2.2 sampleState 1 2 (-100) "gift"
      { id := 2, balance := 40 } (by decide) (by decide)).1⟩

end Balanca

namespace Balanca

theorem find?_append_none {α : Type} {p : α → Bool} {l l₂ : List α}
    (h : (l ++ l₂).find? p = none) : l₂.find? p = none := by
  rw [List.find?_append] at h
  cases h1 : l.find? p <;> cases h2 : l₂.find? p <;>
    simp [h1, h2] at h ⊢

/-- C2: every debit path rejects an amount exceeding the owner's current
balance with INSUFFICIENT_BALANCE and leaves the state (balances,
transaction log, audit log) untouched; when the amount does not exceed the
balance the debit succeeds (absent write failures) and the owner's stored
balance becomes old - amount, which is never negative - in particular an
amount equal to the balance leaves exactly zero. -/
theorem c2_debit_no_overdraft :
    (∀ s uid req f u, userFindByID s uid = some u → req.type ≠ "CREDIT" →
       u.balance < req.amount →
       CreatePersonalTransaction s uid req f =
         (GoResult.appError "INSUFFICIENT_BALANCE", s)) ∧
    (∀ s uid req u, userFindByID s uid = some u → req.type ≠ "CREDIT" →
       ¬ u.balance < req.amount →
       (∃ r, (CreatePersonalTransaction s uid req FailSpec.noFail).1 =
          GoResult.ok r) ∧
       userBalance (CreatePersonalTransaction s uid req FailSpec.noFail).2 uid =
         some (u.balance - req.amount) ∧
       0 ≤ u.balance - req.amount) ∧
    (∀ s uid gid req f g, req.groupId = some gid →
       isActiveMember s uid gid = true → groupFindByID s gid = some g →
       req.type ≠ "CREDIT" → g.balance < req.amount →
       CreateGroupTransaction s uid req f =
         (GoResult.appError "INSUFFICIENT_BALANCE", s)) ∧
    (∀ s uid gid req g, req.groupId = some gid →
       isActiveMember s uid gid = true → groupFindByID s gid = some g →
       req.type ≠ "CREDIT" → ¬ g.balance < req.amount →
       (∃ r, (CreateGroupTransaction s uid req FailSpec.noFail).1 =
          GoResult.ok r) ∧
       groupBalance (CreateGroupTransaction s uid req FailSpec.noFail).2 gid =
         some (g.balance - req.amount) ∧
       0 ≤ g.balance - req.amount) ∧
    (∀ s uid req f u, isActiveMember s uid req.groupId = true →
       userFindByID s uid = some u → u.balance < req.amount →
       TransferToGroup s uid req f =
         (GoResult.appError "INSUFFICIENT_BALANCE", s)) ∧
    (∀ s uid req u g, isActiveMember s uid req.groupId = true →
       userFindByID s uid = some u → ¬ u.balance < req.amount →
       groupFindByID s req.groupId = some g →
       (∃ r, (TransferToGroup s uid req FailSpec.noFail).1 = GoResult.ok r) ∧
       userBalance (TransferToGroup s uid req FailSpec.noFail).2 uid =
         some (u.balance - req.amount) ∧
       0 ≤ u.balance - req.amount) ∧
    (∀ s uid gid req f e g, isActiveMember s uid gid = true →
       expenseFindByID s req.plannedExpenseId = some e → e.groupId = some gid →
       e.status = "planned" → groupFindByID s gid = some g →
       g.balance < req.actualPrice →
       PayGroupExpense s uid gid req f =
         (GoResult.appError "INSUFFICIENT_BALANCE", s)) ∧
    (∀ s uid gid req e g, isActiveMember s uid gid = true →
       expenseFindByID s req.plannedExpenseId = some e → e.groupId = some gid →
       e.status = "planned" → groupFindByID s gid = some g →
       ¬ g.balance < req.actualPrice →
       (∃ r, (PayGroupExpense s uid gid req FailSpec.noFail).1 =
          GoResult.ok r) ∧
       groupBalance (PayGroupExpense s uid gid req FailSpec.noFail).2 gid =
         some (g.balance - req.actualPrice) ∧
       0 ≤ g.balance - req.actualPrice) := by
  refine ⟨?_, ?_, ?_, ?_, ?_, ?_, ?_, ?_⟩
  · intro s uid req f u hfind hc hlt
    unfold CreatePersonalTransaction
    rw [hfind]
    simp [hc, hlt]
  · intro s uid req u hfind hc hlt
    unfold CreatePersonalTransaction
    rw [hfind]
    simp only [hc, if_false, ite_false, hlt,
      show FailSpec.noFail.failsPersonal = false from rfl,
      Bool.false_eq_true]
    have hub : (updateBy User.id s.users
          { u with balance := u.balance - req.amount }).find?
          (fun x => x.id == uid) =
        some { u with balance := u.balance - req.amount } :=
      find?_updateBy User.id hfind rfl
    cases htf : txnFindByID _ _ with
    | none =>
      exfalso
      have hnone := find?_append_none htf
      simp [List.find?_cons] at hnone
    | some t =>
      refine ⟨⟨toResponse t, rfl⟩, ?_, by omega⟩
      unfold userBalance userFindByID saveUser
      dsimp only
      rw [hub]
      rfl
  · intro s uid gid req f g hg hm hgfind hc hlt
    unfold CreateGroupTransaction
    rw [hg]
    simp only [hm, if_pos, ite_true, if_true]
    rw [hgfind]
    simp [hc, hlt]
  · intro s uid gid req g hg hm hgfind hc hlt
    unfold CreateGroupTransaction
    rw [hg]
    simp only [hm, if_pos, ite_true, if_true]
    rw [hgfind]
    simp only [hc, if_false, ite_false, hlt,
      show FailSpec.noFail.failsGroupCreate = false from rfl,
      Bool.false_eq_true]
    have hgb : (updateBy Group.id s.groups
          { g with balance := g.balance - req.amount }).find?
          (fun x => x.id == gid) =
        some { g with balance := g.balance - req.amount } :=
      find?_updateBy Group.id hgfind rfl
    cases htf : txnFindByID _ _ with
    | none =>
      exfalso
      have hnone := find?_append_none htf
      simp [List.find?_cons] at hnone
    | some t =>
      refine ⟨⟨toResponse t, rfl⟩, ?_, by omega⟩
      unfold groupBalance groupFindByID saveGroup
      dsimp only
      rw [hgb]
      rfl
  · intro s uid req f u hm hfind hlt
    unfold TransferToGroup
    simp only [hm, if_pos, ite_true, if_true]
    rw [hfind]
    simp [hlt]
  · intro s uid req u g hm hfind hlt hgfind
    unfold TransferToGroup
    simp only [hm, if_pos, ite_true, if_true]
    rw [hfind]
    simp only [hlt, if_false, ite_false]
    rw [hgfind]
    simp only [show FailSpec.noFail.failsTransfer = false from rfl,
      Bool.false_eq_true, if_false, ite_false]
    have hub : (updateBy User.id s.users
          { u with balance := u.balance - req.amount }).find?
          (fun x => x.id == uid) =
        some { u with balance := u.balance - req.amount } :=
      find?_updateBy User.id hfind rfl
    cases htf : txnFindByID _ _ with
    | none =>
      exfalso
      have hnone := find?_append_none htf
      simp [List.find?_cons] at hnone
    | some t =>
      refine ⟨⟨toResponse t, rfl⟩, ?_, by omega⟩
      unfold userBalance userFindByID saveUser
      dsimp only
      rw [hub]
      rfl
  · intro s uid gid req f e g hm hefind heg hst hgfind hlt
    unfold PayGroupExpense
    simp only [hm, if_pos, ite_true, if_true]
    rw [hefind]
    simp only [heg, hst, if_pos, ite_true, if_true]
    rw [hgfind]
    simp [hlt]
  · intro s uid gid req e g hm hefind heg hst hgfind hlt
    unfold PayGroupExpense
    simp only [hm, if_pos, ite_true, if_true]
    rw [hefind]
    simp only [heg, hst, if_pos, ite_true, if_true]
    rw [hgfind]
    simp only [hlt, if_false, ite_false,
      show FailSpec.noFail.failsPay = false from rfl,
      Bool.false_eq_true]
    have hgb : (updateBy Group.id s.groups
          { g with balance := g.balance - req.actualPrice }).find?
          (fun x => x.id == gid) =
        some { g with balance := g.balance - req.actualPrice } :=
      find?_updateBy Group.id hgfind rfl
    cases htf : txnFindByID _ _ with
    | none =>
      exfalso
      have hnone := find?_append_none htf
      simp [List.find?_cons] at hnone
    | some t =>
      refine ⟨⟨toResponse t, rfl⟩, ?_, by omega⟩
      unfold groupBalance groupFindByID saveGroup
      dsimp only
      rw [hgb]
      rfl

/-- Witness for C2: debiting exactly the whole balance of user 1 (100)
succeeds and leaves balance zero, at the sample database. -/
theorem c2_debit_no_overdraft_witness :
    (∃ r, (CreatePersonalTransaction sampleState 1
        { sampleDebitReq with amount := 100 } FailSpec.noFail).1 =
      GoResult.ok r) ∧
    userBalance (CreatePersonalTransaction sampleState 1
        { sampleDebitReq with amount := 100 } FailSpec.noFail).2 1 =
      some (100 - 100) ∧
    (0 : Int) ≤ 100 - 100 :=
  c2_debit_no_overdraft.2.1 sampleState 1
    { sampleDebitReq with amount := 100 } { id := 1, balance := 100 }
    (by decide) (by decide) (by decide)

end Balanca

namespace Balanca

theorem find?_append_one {l : List Transaction} {txn : Transaction} {n : Nat}
    (hl : ∀ x ∈ l, x.id ≠ n) (hid : txn.id = n) :
    (l ++ [txn]).find? (fun x => x.id == n) = some txn := by
  rw [find?_append_of_none (fun x hx => by simp [hl x hx])]
  simp [List.find?_cons, hid]

theorem find?_append_one_eq {l : List Transaction} {txn t : Transaction}
    {n : Nat} (h : (l ++ [txn]).find? (fun x => x.id == n) = some t)
    (hl : ∀ x ∈ l, x.id ≠ n) (hid : txn.id = n) : t = txn := by
  rw [find?_append_one hl hid] at h
  exact (Option.some.injEq _ _ ▸ h).symm

theorem find?_append_pair_fst {l : List Transaction} {p g : Transaction}
    {n : Nat} (hl : ∀ x ∈ l, x.id ≠ n) (hp : p.id = n) :
    (l ++ [p, g]).find? (fun x => x.id == n) = some p := by
  rw [find?_append_of_none (fun x hx => by simp [hl x hx])]
  simp [List.find?_cons, hp]

theorem find?_append_pair_snd {l : List Transaction} {p g : Transaction}
    {n : Nat} (hl : ∀ x ∈ l, x.id ≠ n) (hp : p.id ≠ n) (hg : g.id = n) :
    (l ++ [p, g]).find? (fun x => x.id == n) = some g := by
  rw [find?_append_of_none (fun x hx => by simp [hl x hx])]
  simp [List.find?_cons, hp, hg]

theorem find?_append_pair_snd_eq {l : List Transaction} {p g t : Transaction}
    {n : Nat} (h : (l ++ [p, g]).find? (fun x => x.id == n) = some t)
    (hl : ∀ x ∈ l, x.id ≠ n) (hp : p.id ≠ n) (hg : g.id = n) : t = g := by
  rw [find?_append_pair_snd hl hp hg] at h
  exact (Option.some.injEq _ _ ▸ h).symm

end Balanca

namespace Balanca

theorem c4_personal_part (s : DBState) (uid : Nat)
    (req : CreateTransactionRequest) (u : User) (hfresh : txnIdsFresh s)
    (hfind : userFindByID s uid = some u)
    (hok : req.type = "CREDIT" ∨ ¬ u.balance < req.amount) :
    ∃ r, (CreatePersonalTransaction s uid req FailSpec.noFail).1 =
        GoResult.ok r ∧
      r.balance = (if req.type = "CREDIT" then u.balance + req.amount
        else u.balance - req.amount) ∧
      userBalance (CreatePersonalTransaction s uid req FailSpec.noFail).2 uid =
        some r.balance ∧
      ∃ t, txnFindByID
          (CreatePersonalTransaction s uid req FailSpec.noFail).2 r.id =
          some t ∧ t.balance = r.balance := by
  have hne : ∀ x ∈ s.transactions, x.id ≠ s.nextId := fun x hx => by
    have := hfresh x hx
    omega
  unfold CreatePersonalTransaction
  rw [hfind]
  by_cases hc : req.type = "CREDIT"
  · simp only [hc, if_pos, ite_true, if_true,
      show FailSpec.noFail.failsPersonal = false from rfl,
      Bool.false_eq_true, if_false, ite_false]
    have hub : (updateBy User.id s.users
          { u with balance := u.balance + req.amount }).find?
          (fun x => x.id == uid) =
        some { u with balance := u.balance + req.amount } :=
      find?_updateBy User.id hfind rfl
    cases htf : txnFindByID _ _ with
    | none =>
      exfalso
      have hnone := find?_append_none htf
      simp [List.find?_cons] at hnone
    | some t =>
      have ht : t = _ := find?_append_one_eq htf hne rfl
      subst ht
      refine ⟨_, rfl, by simp [toResponse], ?_, _, htf, rfl⟩
      unfold userBalance userFindByID saveUser
      dsimp only
      rw [hub]
      rfl
  · have hlt : ¬ u.balance < req.amount := by
      rcases hok with h | h
      · exact absurd h hc
      · exact h
    simp only [hc, if_false, ite_false, hlt,
      show FailSpec.noFail.failsPersonal = false from rfl,
      Bool.false_eq_true]
    have hub : (updateBy User.id s.users
          { u with balance := u.balance - req.amount }).find?
          (fun x => x.id == uid) =
        some { u with balance := u.balance - req.amount } :=
      find?_updateBy User.id hfind rfl
    cases htf : txnFindByID _ _ with
    | none =>
      exfalso
      have hnone := find?_append_none htf
      simp [List.find?_cons] at hnone
    | some t =>
      have ht : t = _ := find?_append_one_eq htf hne rfl
      subst ht
      refine ⟨_, rfl, by simp [toResponse], ?_, _, htf, rfl⟩
      unfold userBalance userFindByID saveUser
      dsimp only
      rw [hub]
      rfl

end Balanca

namespace Balanca

theorem c4_group_part (s : DBState) (uid gid : Nat)
    (req : CreateTransactionRequest) (g : Group) (hfresh : txnIdsFresh s)
    (hg : req.groupId = some gid) (hm : isActiveMember s uid gid = true)
    (hgfind : groupFindByID s gid = some g)
    (hok : req.type = "CREDIT" ∨ ¬ g.balance < req.amount) :
    ∃ r, (CreateGroupTransaction s uid req FailSpec.noFail).1 =
        GoResult.ok r ∧
      r.balance = (if req.type = "CREDIT" then g.balance + req.amount
        else g.balance - req.amount) ∧
      groupBalance (CreateGroupTransaction s uid req FailSpec.noFail).2 gid =
        some r.balance ∧
      ∃ t, txnFindByID
          (CreateGroupTransaction s uid req FailSpec.noFail).2 r.id =
          some t ∧ t.balance = r.balance := by
  have hne : ∀ x ∈ s.transactions, x.id ≠ s.nextId := fun x hx => by
    have := hfresh x hx
    omega
  unfold CreateGroupTransaction
  rw [hg]
  simp only [hm, if_pos, ite_true, if_true]
  rw [hgfind]
  by_cases hc : req.type = "CREDIT"
  · simp only [hc, if_pos, ite_true, if_true,
      show FailSpec.noFail.failsGroupCreate = false from rfl,
      Bool.false_eq_true, if_false, ite_false]
    have hgb : (updateBy Group.id s.groups
          { g with balance := g.balance + req.amount }).find?
          (fun x => x.id == gid) =
        some { g with balance := g.balance + req.amount } :=
      find?_updateBy Group.id hgfind rfl
    cases htf : txnFindByID _ _ with
    | none =>
      exfalso
      have hnone := find?_append_none htf
      simp [List.find?_cons] at hnone
    | some t =>
      have ht : t = _ := find?_append_one_eq htf hne rfl
      subst ht
      refine ⟨_, rfl, by simp [toResponse], ?_, _, htf, rfl⟩
      unfold groupBalance groupFindByID saveGroup
      dsimp only
      rw [hgb]
      rfl
  · have hlt : ¬ g.balance < req.amount := by
      rcases hok with h | h
      · exact absurd h hc
      · exact h
    simp only [hc, if_false, ite_false, hlt,
      show FailSpec.noFail.failsGroupCreate = false from rfl,
      Bool.false_eq_true]
    have hgb : (updateBy Group.id s.groups
          { g with balance := g.balance - req.amount }).find?
          (fun x => x.id == gid) =
        some { g with balance := g.balance - req.amount } :=
      find?_updateBy Group.id hgfind rfl
    cases htf : txnFindByID _ _ with
    | none =>
      exfalso
      have hnone := find?_append_none htf
      simp [List.find?_cons] at hnone
    | some t =>
      have ht : t = _ := find?_append_one_eq htf hne rfl
      subst ht
      refine ⟨_, rfl, by simp [toResponse], ?_, _, htf, rfl⟩
      unfold groupBalance groupFindByID saveGroup
      dsimp only
      rw [hgb]
      rfl

theorem c4_transfer_part (s : DBState) (uid : Nat)
    (req : TransferToGroupRequest) (u : User) (g : Group)
    (hfresh : txnIdsFresh s)
    (hm : isActiveMember s uid req.groupId = true)
    (hfind : userFindByID s uid = some u)
    (hlt : ¬ u.balance < req.amount)
    (hgfind : groupFindByID s req.groupId = some g) :
    ∃ r, (TransferToGroup s uid req FailSpec.noFail).1 = GoResult.ok r ∧
      r.balance = g.balance + req.amount ∧
      groupBalance (TransferToGroup s uid req FailSpec.noFail).2 req.groupId =
        some r.balance ∧
      (∃ t, txnFindByID (TransferToGroup s uid req FailSpec.noFail).2 r.id =
          some t ∧ t.balance = r.balance) ∧
      (∃ t, txnFindByID (TransferToGroup s uid req FailSpec.noFail).2
          s.nextId = some t ∧ t.balance = u.balance - req.amount ∧
        userBalance (TransferToGroup s uid req FailSpec.noFail).2 uid =
          some t.balance) := by
  have hne : ∀ x ∈ s.transactions, x.id ≠ s.nextId := fun x hx => by
    have := hfresh x hx
    omega
  have hne1 : ∀ x ∈ s.transactions, x.id ≠ s.nextId + 1 := fun x hx => by
    have := hfresh x hx
    omega
  unfold TransferToGroup
  simp only [hm, if_pos, ite_true, if_true]
  rw [hfind]
  simp only [hlt, if_false, ite_false]
  rw [hgfind]
  simp only [show FailSpec.noFail.failsTransfer = false from rfl,
    Bool.false_eq_true, if_false, ite_false]
  have hub : (updateBy User.id s.users
        { u with balance := u.balance - req.amount }).find?
        (fun x => x.id == uid) =
      some { u with balance := u.balance - req.amount } :=
    find?_updateBy User.id hfind rfl
  have hgb : (updateBy Group.id s.groups
        { g with balance := g.balance + req.amount }).find?
        (fun x => x.id == req.groupId) =
      some { g with balance := g.balance + req.amount } :=
    find?_updateBy Group.id hgfind rfl
  cases htf : txnFindByID _ _ with
  | none =>
    exfalso
    have hnone := find?_append_none htf
    simp [List.find?_cons] at hnone
  | some t =>
    have ht : t = _ := find?_append_pair_snd_eq htf hne1 (by simp) rfl
    subst ht
    refine ⟨_, rfl, by simp [toResponse], ?_, ⟨_, htf, rfl⟩, ?_⟩
    · unfold groupBalance groupFindByID saveGroup
      dsimp only
      rw [hgb]
      rfl
    · refine ⟨_, find?_append_pair_fst hne rfl, rfl, ?_⟩
      unfold userBalance userFindByID saveUser
      dsimp only
      rw [hub]
      rfl

theorem c4_pay_part (s : DBState) (uid gid : Nat)
    (req : PayGroupExpenseRequest) (e : PlannedExpense) (g : Group)
    (hfresh : txnIdsFresh s) (hm : isActiveMember s uid gid = true)
    (hefind : expenseFindByID s req.plannedExpenseId = some e)
    (heg : e.groupId = some gid) (hst : e.status = "planned")
    (hgfind : groupFindByID s gid = some g)
    (hlt : ¬ g.balance < req.actualPrice) :
    ∃ r, (PayGroupExpense s uid gid req FailSpec.noFail).1 = GoResult.ok r ∧
      r.balance = g.balance - req.actualPrice ∧
      groupBalance (PayGroupExpense s uid gid req FailSpec.noFail).2 gid =
        some r.balance ∧
      ∃ t, txnFindByID (PayGroupExpense s uid gid req FailSpec.noFail).2
          r.id = some t ∧ t.balance = r.balance := by
  have hne : ∀ x ∈ s.transactions, x.id ≠ s.nextId := fun x hx => by
    have := hfresh x hx
    omega
  unfold PayGroupExpense
  simp only [hm, if_pos, ite_true, if_true]
  rw [hefind]
  simp only [heg, hst, if_pos, ite_true, if_true]
  rw [hgfind]
  simp only [hlt, if_false, ite_false,
    show FailSpec.noFail.failsPay = false from rfl,
    Bool.false_eq_true]
  have hgb : (updateBy Group.id s.groups
        { g with balance := g.balance - req.actualPrice }).find?
        (fun x => x.id == gid) =
      some { g with balance := g.balance - req.actualPrice } :=
    find?_updateBy Group.id hgfind rfl
  cases htf : txnFindByID _ _ with
  | none =>
    exfalso
    have hnone := find?_append_none htf
    simp [List.find?_cons] at hnone
  | some t =>
    have ht : t = _ := find?_append_one_eq htf hne rfl
    subst ht
    refine ⟨_, rfl, by simp [toResponse], ?_, _, htf, rfl⟩
    unfold groupBalance groupFindByID saveGroup
    dsimp only
    rw [hgb]
    rfl

theorem c4_income_part (s : DBState) (uid gid : Nat) (amount : Int)
    (src : String) (g : Group) (hfresh : txnIdsFresh s)
    (hm : isActiveMember s uid gid = true)
    (hgfind : groupFindByID s gid = some g) :
    ∃ r, (RecordExternalIncome s uid gid amount src FailSpec.noFail).1 =
        GoResult.ok r ∧
      r.balance = g.balance + amount ∧
      groupBalance
          (RecordExternalIncome s uid gid amount src FailSpec.noFail).2 gid =
        some r.balance ∧
      ∃ t, txnFindByID
          (RecordExternalIncome s uid gid amount src FailSpec.noFail).2
          r.id = some t ∧ t.balance = r.balance := by
  have hne : ∀ x ∈ s.transactions, x.id ≠ s.nextId := fun x hx => by
    have := hfresh x hx
    omega
  unfold RecordExternalIncome
  simp only [hm, if_pos, ite_true, if_true]
  rw [hgfind]
  simp only [show FailSpec.noFail.failsIncome = false from rfl,
    Bool.false_eq_true, if_false, ite_false]
  have hgb : (updateBy Group.id s.groups
        { g with balance := g.balance + amount }).find?
        (fun x => x.id == gid) =
      some { g with balance := g.balance + amount } :=
    find?_updateBy Group.id hgfind rfl
  cases htf : txnFindByID _ _ with
  | none =>
    exfalso
    have hnone := find?_append_none htf
    simp [List.find?_cons] at hnone
  | some t =>
    have ht : t = _ := find?_append_one_eq htf hne rfl
    subst ht
    refine ⟨_, rfl, by simp [toResponse], ?_, _, htf, rfl⟩
    unfold groupBalance groupFindByID saveGroup
    dsimp only
    rw [hgb]
    rfl

/-- C4: whenever an operation succeeds, the new balance is
old balance + amount for CREDIT and old balance - amount for DEBIT, the
returned response carries exactly that balance, the owner's stored balance
read immediately afterwards equals it, and the transaction record fetched
by the returned id reports the same balance (round trip). TransferToGroup
additionally round-trips its personal DEBIT leg against the user's balance. -/
theorem c4_snapshot_balance_round_trip :
    (∀ s uid req u, txnIdsFresh s → userFindByID s uid = some u →
       (req.type = "CREDIT" ∨ ¬ u.balance < req.amount) →
       ∃ r, (CreatePersonalTransaction s uid req FailSpec.noFail).1 =
           GoResult.ok r ∧
         r.balance = (if req.type = "CREDIT" then u.balance + req.amount
           else u.balance - req.amount) ∧
         userBalance
             (CreatePersonalTransaction s uid req FailSpec.noFail).2 uid =
           some r.balance ∧
         ∃ t, txnFindByID
             (CreatePersonalTransaction s uid req FailSpec.noFail).2 r.id =
             some t ∧ t.balance = r.balance) ∧
    (∀ s uid gid req g, txnIdsFresh s → req.groupId = some gid →
       isActiveMember s uid gid = true → groupFindByID s gid = some g →
       (req.type = "CREDIT" ∨ ¬ g.balance < req.amount) →
       ∃ r, (CreateGroupTransaction s uid req FailSpec.noFail).1 =
           GoResult.ok r ∧
         r.balance = (if req.type = "CREDIT" then g.balance + req.amount
           else g.balance - req.amount) ∧
         groupBalance
             (CreateGroupTransaction s uid req FailSpec.noFail).2 gid =
           some r.balance ∧
         ∃ t, txnFindByID
             (CreateGroupTransaction s uid req FailSpec.noFail).2 r.id =
             some t ∧ t.balance = r.balance) ∧
    (∀ s uid req u g, txnIdsFresh s →
       isActiveMember s uid req.groupId = true →
       userFindByID s uid = some u → ¬ u.balance < req.amount →
       groupFindByID s req.groupId = some g →
       ∃ r, (TransferToGroup s uid req FailSpec.noFail).1 = GoResult.ok r ∧
         r.balance = g.balance + req.amount ∧
         groupBalance
             (TransferToGroup s uid req FailSpec.noFail).2 req.groupId =
           some r.balance ∧
         (∃ t, txnFindByID (TransferToGroup s uid req FailSpec.noFail).2
             r.id = some t ∧ t.balance = r.balance) ∧
         (∃ t, txnFindByID (TransferToGroup s uid req FailSpec.noFail).2
             s.nextId = some t ∧ t.balance = u.balance - req.amount ∧
           userBalance (TransferToGroup s uid req FailSpec.noFail).2 uid =
             some t.balance)) ∧
    (∀ s uid gid req e g, txnIdsFresh s → isActiveMember s uid gid = true →
       expenseFindByID s req.plannedExpenseId = some e →
       e.groupId = some gid → e.status = "planned" →
       groupFindByID s gid = some g → ¬ g.balance < req.actualPrice →
       ∃ r, (PayGroupExpense s uid gid req FailSpec.noFail).1 =
           GoResult.ok r ∧
         r.balance = g.balance - req.actualPrice ∧
         groupBalance (PayGroupExpense s uid gid req FailSpec.noFail).2
             gid = some r.balance ∧
         ∃ t, txnFindByID (PayGroupExpense s uid gid req FailSpec.noFail).2
             r.id = some t ∧ t.balance = r.balance) ∧
    (∀ s uid gid amount src g, txnIdsFresh s →
       isActiveMember s uid gid = true → groupFindByID s gid = some g →
       ∃ r, (RecordExternalIncome s uid gid amount src FailSpec.noFail).1 =
           GoResult.ok r ∧
         r.balance = g.balance + amount ∧
         groupBalance
             (RecordExternalIncome s uid gid amount src FailSpec.noFail).2
             gid = some r.balance ∧
         ∃ t, txnFindByID
             (RecordExternalIncome s uid gid amount src FailSpec.noFail).2
             r.id = some t ∧ t.balance = r.balance) :=
  ⟨fun s uid req u hf hu hok => c4_personal_part s uid req u hf hu hok,
   fun s uid gid req g hf hg hm hgf hok =>
     c4_group_part s uid gid req g hf hg hm hgf hok,
   fun s uid req u g hf hm hu hlt hgf =>
     c4_transfer_part s uid req u g hf hm hu hlt hgf,
   fun s uid gid req e g hf hm he heg hst hgf hlt =>
     c4_pay_part s uid gid req e g hf hm he heg hst hgf hlt,
   fun s uid gid amount src g hf hm hgf =>
     c4_income_part s uid gid amount src g hf hm hgf⟩

/-- Witness for C4: a concrete personal credit of 30 on the sample
database. -/
theorem c4_snapshot_balance_round_trip_witness :
    ∃ r, (CreatePersonalTransaction sampleState 1 sampleCreditReq
        FailSpec.noFail).1 = GoResult.ok r ∧
      r.balance = (if sampleCreditReq.type = "CREDIT" then
        (100 : Int) + sampleCreditReq.amount
        else 100 - sampleCreditReq.amount) ∧
      userBalance (CreatePersonalTransaction sampleState 1 sampleCreditReq
          FailSpec.noFail).2 1 = some r.balance ∧
      ∃ t, txnFindByID (CreatePersonalTransaction sampleState 1
          sampleCreditReq FailSpec.noFail).2 r.id = some t ∧
        t.balance = r.balance :=
  c4_snapshot_balance_round_trip.1 sampleState 1 sampleCreditReq
    { id := 1, balance := 100 } (by decide) (by decide) (Or.inl (by decide))

end Balanca

namespace Balanca

theorem pay_not_planned (s : DBState) (uid gid : Nat)
    (req : PayGroupExpenseRequest) (e : PlannedExpense) (f : FailSpec)
    (hm : isActiveMember s uid gid = true)
    (hefind : expenseFindByID s req.plannedExpenseId = some e)
    (heg : e.groupId = some gid) (hst : e.status ≠ "planned") :
    PayGroupExpense s uid gid req f =
      (GoResult.appError "INVALID_STATUS", s) := by
  unfold PayGroupExpense
  simp only [hm, if_pos, ite_true, if_true]
  rw [hefind]
  dsimp only
  rw [if_pos heg, if_neg hst]

theorem c5_pay_success_part (s : DBState) (uid gid : Nat)
    (req : PayGroupExpenseRequest) (e : PlannedExpense) (g : Group)
    (hfresh : txnIdsFresh s) (hm : isActiveMember s uid gid = true)
    (hefind : expenseFindByID s req.plannedExpenseId = some e)
    (heg : e.groupId = some gid) (hst : e.status = "planned")
    (hgfind : groupFindByID s gid = some g)
    (hlt : ¬ g.balance < req.actualPrice) :
    ∃ r, (PayGroupExpense s uid gid req FailSpec.noFail).1 = GoResult.ok r ∧
      r.type = "DEBIT" ∧ r.amount = req.actualPrice ∧
      r.plannedExpenseId = some req.plannedExpenseId ∧ r.paidBy = some uid ∧
      groupBalance (PayGroupExpense s uid gid req FailSpec.noFail).2 gid =
        some (g.balance - req.actualPrice) ∧
      expenseFindByID (PayGroupExpense s uid gid req FailSpec.noFail).2
          req.plannedExpenseId =
        some { e with
          status := "bought", actualPrice := some req.actualPrice,
          paidBy := some uid, paidAt := some s.now } ∧
      ∀ f', PayGroupExpense (PayGroupExpense s uid gid req FailSpec.noFail).2
          uid gid req f' =
        (GoResult.appError "INVALID_STATUS",
          (PayGroupExpense s uid gid req FailSpec.noFail).2) := by
  have hne : ∀ x ∈ s.transactions, x.id ≠ s.nextId := fun x hx => by
    have := hfresh x hx
    omega
  unfold PayGroupExpense
  simp only [hm, if_pos, ite_true, if_true]
  rw [hefind]
  dsimp only
  rw [if_pos heg, if_pos hst, hgfind]
  simp only [hlt, if_false, ite_false,
    show FailSpec.noFail.failsPay = false from rfl,
    Bool.false_eq_true]
  have hgb : (updateBy Group.id s.groups
        { g with balance := g.balance - req.actualPrice }).find?
        (fun x => x.id == gid) =
      some { g with balance := g.balance - req.actualPrice } :=
    find?_updateBy Group.id hgfind rfl
  have hexp : (updateBy PlannedExpense.id s.expenses
        { e with
          status := "bought", actualPrice := some req.actualPrice,
          paidBy := some uid, paidAt := some s.now }).find?
        (fun x => x.id == req.plannedExpenseId) =
      some { e with
        status := "bought", actualPrice := some req.actualPrice,
        paidBy := some uid, paidAt := some s.now } :=
    find?_updateBy PlannedExpense.id hefind rfl
  cases htf : txnFindByID _ _ with
  | none =>
    exfalso
    have hnone := find?_append_none htf
    simp [List.find?_cons] at hnone
  | some t =>
    have ht : t = _ := find?_append_one_eq htf hne rfl
    subst ht
    dsimp only
    refine ⟨_, rfl, rfl, rfl, rfl, rfl, ?_, ?_, ?_⟩
    · unfold groupBalance groupFindByID saveGroup
      dsimp only
      rw [hgb]
      rfl
    · unfold expenseFindByID saveExpense
      dsimp only
      rw [hexp]
    · exact fun f' => pay_not_planned _ uid gid req _ f' hm hexp heg
        (by simp)

end Balanca

namespace Balanca

/-- C5: PayGroupExpense, called by an active member, fails EXPENSE_NOT_FOUND
when the planned expense does not exist, FORBIDDEN when it does not belong
to the group, INVALID_STATUS when its status is not planned, and
INSUFFICIENT_BALANCE when the group balance is below the actual price, in
each case leaving the state unchanged; on success it debits the group by
actualPrice, creates a DEBIT transaction whose planned_expense_id is the
expense id and whose paid_by is the acting user, atomically marks the
expense bought with actual_price, paid_by and paid_at set, and repeating
the same call on the now-bought expense fails INVALID_STATUS and changes
nothing. -/
theorem c5_pay_group_expense_contract :
    (∀ s uid gid req f, isActiveMember s uid gid = true →
       expenseFindByID s req.plannedExpenseId = none →
       PayGroupExpense s uid gid req f =
         (GoResult.appError "EXPENSE_NOT_FOUND", s)) ∧
    (∀ s uid gid req f e, isActiveMember s uid gid = true →
       expenseFindByID s req.plannedExpenseId = some e →
       e.groupId ≠ some gid →
       PayGroupExpense s uid gid req f =
         (GoResult.appError "FORBIDDEN", s)) ∧
    (∀ s uid gid req f e, isActiveMember s uid gid = true →
       expenseFindByID s req.plannedExpenseId = some e →
       e.groupId = some gid → e.status ≠ "planned" →
       PayGroupExpense s uid gid req f =
         (GoResult.appError "INVALID_STATUS", s)) ∧
    (∀ s uid gid req f e g, isActiveMember s uid gid = true →
       expenseFindByID s req.plannedExpenseId = some e →
       e.groupId = some gid → e.status = "planned" →
       groupFindByID s gid = some g → g.balance < req.actualPrice →
       PayGroupExpense s uid gid req f =
         (GoResult.appError "INSUFFICIENT_BALANCE", s)) ∧
    (∀ s uid gid req e g, txnIdsFresh s → isActiveMember s uid gid = true →
       expenseFindByID s req.plannedExpenseId = some e →
       e.groupId = some gid → e.status = "planned" →
       groupFindByID s gid = some g → ¬ g.balance < req.actualPrice →
       ∃ r, (PayGroupExpense s uid gid req FailSpec.noFail).1 =
           GoResult.ok r ∧
         r.type = "DEBIT" ∧ r.amount = req.actualPrice ∧
         r.plannedExpenseId = some req.plannedExpenseId ∧
         r.paidBy = some uid ∧
         groupBalance (PayGroupExpense s uid gid req FailSpec.noFail).2
             gid = some (g.balance - req.actualPrice) ∧
         expenseFindByID (PayGroupExpense s uid gid req FailSpec.noFail).2
             req.plannedExpenseId =
           some { e with
             status := "bought", actualPrice := some req.actualPrice,
             paidBy := some uid, paidAt := some s.now } ∧
         ∀ f', PayGroupExpense
             (PayGroupExpense s uid gid req FailSpec.noFail).2 uid gid
             req f' =
           (GoResult.appError "INVALID_STATUS",
             (PayGroupExpense s uid gid req FailSpec.noFail).2)) := by
  refine ⟨?_, ?_, ?_, ?_, ?_⟩
  · intro s uid gid req f hm hnone
    unfold PayGroupExpense
    simp only [hm, if_pos, ite_true, if_true]
    rw [hnone]
  · intro s uid gid req f e hm hefind hne
    unfold PayGroupExpense
    simp only [hm, if_pos, ite_true, if_true]
    rw [hefind]
    dsimp only
    rw [if_neg hne]
  · intro s uid gid req f e hm hefind heg hst
    exact pay_not_planned s uid gid req e f hm hefind heg hst
  · intro s uid gid req f e g hm hefind heg hst hgfind hlt
    unfold PayGroupExpense
    simp only [hm, if_pos, ite_true, if_true]
    rw [hefind]
    dsimp only
    rw [if_pos heg, if_pos hst, hgfind]
    simp [hlt]
  · intro s uid gid req e g hfresh hm hefind heg hst hgfind hlt
    exact c5_pay_success_part s uid gid req e g hfresh hm hefind heg hst
      hgfind hlt

/-- Witness for C5: paying the planned sample expense (id 5, actual price
30) from group 2 with balance 40. -/
theorem c5_pay_group_expense_contract_witness :
    ∃ r, (PayGroupExpense sampleState 1 2 samplePayReq FailSpec.noFail).1 =
        GoResult.ok r ∧
      r.type = "DEBIT" ∧ r.amount = samplePayReq.actualPrice ∧
      r.plannedExpenseId = some samplePayReq.plannedExpenseId ∧
      r.paidBy = some 1 ∧
      groupBalance (PayGroupExpense sampleState 1 2 samplePayReq
          FailSpec.noFail).2 2 = some (40 - samplePayReq.actualPrice) ∧
      expenseFindByID (PayGroupExpense sampleState 1 2 samplePayReq
          FailSpec.noFail).2 samplePayReq.plannedExpenseId =
        some { id := 5, estimatedPrice := 200,
               actualPrice := some samplePayReq.actualPrice,
               category := "food", status := "bought", groupId := some 2,
               userId := 1, paidBy := some 1, paidAt := some 77 } ∧
      ∀ f', PayGroupExpense (PayGroupExpense sampleState 1 2 samplePayReq
          FailSpec.noFail).2 1 2 samplePayReq f' =
        (GoResult.appError "INVALID_STATUS",
          (PayGroupExpense sampleState 1 2 samplePayReq FailSpec.noFail).2) :=
  c5_pay_group_expense_contract.2.2.2.2 sampleState 1 2 samplePayReq
    { id := 5, estimatedPrice := 200, category := "food",
      status := "planned", groupId := some 2, userId := 1 }
    { id := 2, balance := 40 } (by decide) (by decide) (by decide)
    (by decide) (by decide) (by decide) (by decide)

end Balanca

namespace Balanca

/-- C6 counterexample: on the sample database the transfer of 50 from user
1 to group 2 returns a single transaction record - the group CREDIT leg
(id 7) - while the user DEBIT leg (id 6) is created in the log but is not
part of the returned value, so the operation does not return the pair of
records. -/
theorem c6_counterexample_single_record_returned :
    (TransferToGroup sampleState 1 sampleTransferReq FailSpec.noFail).1 =
      GoResult.ok { id := 7, ownerType := "GROUP", ownerId := 2,
                    type := "CREDIT", amount := 50, balance := 90,
                    category := "member_contribution", source := "member",
                    description := "", groupId := some 2,
                    paidBy := some 1 } ∧
    txnFindByID (TransferToGroup sampleState 1 sampleTransferReq
        FailSpec.noFail).2 6 =
      some { id := 6, ownerType := "USER", ownerId := 1, type := "DEBIT",
             amount := 50, balance := 50, category := "transfer",
             source := "group_transfer", description := "",
             groupId := some 2, userId := 1 } ∧
    (6 : Nat) ≠ 7 := by decide

/-- C6 (amended): TransferToGroup, called by an active member with
sufficient balance, atomically debits the user and credits the group by the
amount, creating exactly two transaction records - a user-owned DEBIT and a
group-owned CREDIT, both of the amount, linked through group_id and (on the
group leg) paid_by - but it returns only the group CREDIT record to the
caller, not the pair. -/
theorem c6_transfer_pair_amended (s : DBState) (uid : Nat)
    (req : TransferToGroupRequest) (u : User) (g : Group)
    (hfresh : txnIdsFresh s)
    (hm : isActiveMember s uid req.groupId = true)
    (hfind : userFindByID s uid = some u)
    (hlt : ¬ u.balance < req.amount)
    (hgfind : groupFindByID s req.groupId = some g) :
    ∃ pt gt,
      (TransferToGroup s uid req FailSpec.noFail).2.transactions =
        s.transactions ++ [pt, gt] ∧
      pt.ownerType = "USER" ∧ pt.ownerId = uid ∧ pt.type = "DEBIT" ∧
      pt.amount = req.amount ∧ pt.groupId = some req.groupId ∧
      pt.userId = uid ∧
      gt.ownerType = "GROUP" ∧ gt.ownerId = req.groupId ∧
      gt.type = "CREDIT" ∧ gt.amount = req.amount ∧
      gt.groupId = some req.groupId ∧ gt.paidBy = some uid ∧
      userBalance (TransferToGroup s uid req FailSpec.noFail).2 uid =
        some (u.balance - req.amount) ∧
      groupBalance (TransferToGroup s uid req FailSpec.noFail).2
          req.groupId = some (g.balance + req.amount) ∧
      (TransferToGroup s uid req FailSpec.noFail).1 =
        GoResult.ok (toResponse gt) := by
  have hne1 : ∀ x ∈ s.transactions, x.id ≠ s.nextId + 1 := fun x hx => by
    have := hfresh x hx
    omega
  unfold TransferToGroup
  simp only [hm, if_pos, ite_true, if_true]
  rw [hfind]
  simp only [hlt, if_false, ite_false]
  rw [hgfind]
  simp only [show FailSpec.noFail.failsTransfer = false from rfl,
    Bool.false_eq_true, if_false, ite_false]
  have hub : (updateBy User.id s.users
        { u with balance := u.balance - req.amount }).find?
        (fun x => x.id == uid) =
      some { u with balance := u.balance - req.amount } :=
    find?_updateBy User.id hfind rfl
  have hgb : (updateBy Group.id s.groups
        { g with balance := g.balance + req.amount }).find?
        (fun x => x.id == req.groupId) =
      some { g with balance := g.balance + req.amount } :=
    find?_updateBy Group.id hgfind rfl
  cases htf : txnFindByID _ _ with
  | none =>
    exfalso
    have hnone := find?_append_none htf
    simp [List.find?_cons] at hnone
  | some t =>
    have ht : t = _ := find?_append_pair_snd_eq htf hne1 (by simp) rfl
    subst ht
    dsimp only
    refine ⟨_, _, rfl, rfl, rfl, rfl, rfl, rfl, rfl, rfl, rfl, rfl, rfl,
      rfl, rfl, ?_, ?_, rfl⟩
    · unfold userBalance userFindByID saveUser
      dsimp only
      rw [hub]
      rfl
    · unfold groupBalance groupFindByID saveGroup
      dsimp only
      rw [hgb]
      rfl

/-- Witness for C6 (amended) at the sample database. -/
theorem c6_transfer_pair_amended_witness :
    ∃ pt gt,
      (TransferToGroup sampleState 1 sampleTransferReq
          FailSpec.noFail).2.transactions =
        sampleState.transactions ++ [pt, gt] ∧
      pt.ownerType = "USER" ∧ pt.ownerId = 1 ∧ pt.type = "DEBIT" ∧
      pt.amount = sampleTransferReq.amount ∧
      pt.groupId = some sampleTransferReq.groupId ∧ pt.userId = 1 ∧
      gt.ownerType = "GROUP" ∧ gt.ownerId = sampleTransferReq.groupId ∧
      gt.type = "CREDIT" ∧ gt.amount = sampleTransferReq.amount ∧
      gt.groupId = some sampleTransferReq.groupId ∧ gt.paidBy = some 1 ∧
      userBalance (TransferToGroup sampleState 1 sampleTransferReq
          FailSpec.noFail).2 1 = some (100 - sampleTransferReq.amount) ∧
      groupBalance (TransferToGroup sampleState 1 sampleTransferReq
          FailSpec.noFail).2 sampleTransferReq.groupId =
        some (40 + sampleTransferReq.amount) ∧
      (TransferToGroup sampleState 1 sampleTransferReq FailSpec.noFail).1 =
        GoResult.ok (toResponse gt) :=
  c6_transfer_pair_amended sampleState 1 sampleTransferReq
    { id := 1, balance := 100 } { id := 2, balance := 40 } (by decide)
    (by decide) (by decide) (by decide) (by decide)

end Balanca
